import Mathlib

/-
Verification of the RA8875 display-driver core (src/src/lib.rs) against its
natural-language specification.

Shallow embedding conventions:
- Machine integers are Nat (unsigned) or Int (signed i16/i32), with explicit
  % 2^w at every place the source truncates (an `as u8` or `as i16` cast).
- The SPI transport layer is modeled at the bus level: a list of BusEv events
  (chip-select edges and single full-duplex byte exchanges).  Each source
  transaction (write_data, read_data, write_command, read_status) first checks
  the ready pin and either fails with WouldBlock (modeled as a `none` result
  and an empty event list) or performs its chip-select window and exchanges.
- Higher layers are modeled at the transaction level: a list of Tx events,
  one event per successful transport transaction (block! spins on WouldBlock
  until the ready pin asserts, then performs exactly one transaction, so the
  successful transaction sequence is the observable trace).  Raw streamed
  bytes inside an open chip-select window (push_pixels, draw_point,
  fill_contiguous) appear as Tx.stream events, and the explicit chip-select
  manipulation in those code paths appears as Tx.csLow / Tx.csHigh.
- Register reads return values drawn from an environment oracle
  `Env : Nat -> Nat` mapping a register address to the byte the chip would
  answer with; the u8 type of the answer is embedded as `env r % 256`.
- The read-only busy-wait loop after a drawing trigger (repeatedly reading
  the trigger register until its busy bit clears) issues no writes; it is
  recorded as a single Tx.poll event carrying the polled register and mask.
-/

namespace RA8875

/- Command opcodes, from the source enum Command. -/
namespace Command

def DataWrite : Nat := 0x00

def DataRead : Nat := 0x40

def CmdWrite : Nat := 0x80

def CmdRead : Nat := 0xC0

end Command

/- Register addresses, from the source enum Register (subset used here). -/
namespace Register

def SelfTest : Nat := 0x00

def Pwrr : Nat := 0x01

def Mrwc : Nat := 0x02

def Sysr : Nat := 0x10

def Pcsr : Nat := 0x04

def Hdwr : Nat := 0x14

def Hndftr : Nat := 0x15

def Hndr : Nat := 0x16

def Hstr : Nat := 0x17

def Hpwr : Nat := 0x18

def Vdhr0 : Nat := 0x19

def Vdhr1 : Nat := 0x1A

def Vndr0 : Nat := 0x1B

def Vndr1 : Nat := 0x1C

def Vstr0 : Nat := 0x1D

def Vstr1 : Nat := 0x1E

def Vpwr : Nat := 0x1F

def Hsaw0 : Nat := 0x30

def Hsaw1 : Nat := 0x31

def Vsaw0 : Nat := 0x32

def Vsaw1 : Nat := 0x33

def Heaw0 : Nat := 0x34

def Heaw1 : Nat := 0x35

def Veaw0 : Nat := 0x36

def Veaw1 : Nat := 0x37

def Mclr : Nat := 0x8E

def Dcr : Nat := 0x90

def Mwcr0 : Nat := 0x40

def CurH0 : Nat := 0x46

def CurH1 : Nat := 0x47

def CurV0 : Nat := 0x48

def CurV1 : Nat := 0x49

def Tpxh : Nat := 0x72

def Tpyh : Nat := 0x73

def Tpxyl : Nat := 0x74

def Intc2 : Nat := 0xF1

def TextX0 : Nat := 0x2A

def TextX1 : Nat := 0x2B

def TextY0 : Nat := 0x2C

def TextY1 : Nat := 0x2D

def TextBg0 : Nat := 0x60

def TextBg1 : Nat := 0x61

def TextBg2 : Nat := 0x62

def Color0 : Nat := 0x63

def Color1 : Nat := 0x64

def Color2 : Nat := 0x65

def FontOptions : Nat := 0x22

def ShapeStartX0 : Nat := 0x91

def ShapeStartX1 : Nat := 0x92

def ShapeStartY0 : Nat := 0x93

def ShapeStartY1 : Nat := 0x94

def ShapeEndX0 : Nat := 0x95

def ShapeEndX1 : Nat := 0x96

def ShapeEndY0 : Nat := 0x97

def ShapeEndY1 : Nat := 0x98

end Register

/- Command bit constants from the source cmds module (subset used here). -/
namespace cmds

def SysrBBP16 : Nat := 0x0C

def PcsrPdatl : Nat := 0x80

def PcsrClk2 : Nat := 0x01

def PcsrClk4 : Nat := 0x02

def HndftrHigh : Nat := 0x00

def HpwrLow : Nat := 0x00

def VpwrLow : Nat := 0x00

def MclrStart : Nat := 0x80

def Mwcr0TxtMode : Nat := 0x80

def DcrFILL : Nat := 0x20

def Intc2TP : Nat := 0x04

end cmds

/-- Bitwise complement on a byte, embedding the u8 `!x` operator. -/
def u8compl (x : Nat) : Nat := 255 - x % 256

/-- Truncating cast of an unsigned value or an i32 to i16, embedding `as i16`
(keep the low 16 bits and reinterpret as a signed 16-bit value). -/
def i16wrap (x : Int) : Int := (x + 32768) % 65536 - 32768

/-- Arithmetic right shift of an i16 by 8, embedding the Rust `x >> 8` on a
signed value (floor division by 256). -/
def i16shr8 (x : Int) : Int := Int.fdiv x 256

/-- Truncating cast of an i16 to u8, embedding `as u8` on a signed value. -/
def u8ofI16 (x : Int) : Nat := (x % 256).toNat

/-- Reinterpretation of a u16 value as i16, embedding `as i16` on a u16. -/
def i16ofU16 (x : Nat) : Int := i16wrap (x % 65536)

/- ---------------------------------------------------------------------
Transport layer (bus level): write_data, read_data, write_command,
read_status from the source.
--------------------------------------------------------------------- -/

/-- Bus-level event: a chip-select edge or one full-duplex byte exchange
(the byte driven out by the driver on that exchange). -/
inductive BusEv where
  | csLow : BusEv
  | csHigh : BusEv
  | xfer : Nat → BusEv
deriving DecidableEq, Repr

namespace Transport

/-- spi_send from the source: one full-duplex exchange driving the given
byte, with the received byte discarded. -/
def spi_send (b : Nat) : List BusEv := [BusEv.xfer b]

/-- spi_read from the source: one full-duplex exchange driving a dummy zero
byte; the received byte is the result. -/
def spi_read_evs : List BusEv := [BusEv.xfer 0]

/-- write_data from the source: if the ready pin reads low, fail with
WouldBlock and touch nothing; otherwise assert chip select, exchange the
data-write opcode then the payload, and deassert chip select. -/
def write_data (ready : Bool) (data : Nat) : List BusEv × Option Unit :=
  if !ready then ([], none)
  else ([BusEv.csLow] ++ spi_send Command.DataWrite ++ spi_send (data % 256)
        ++ [BusEv.csHigh], some ())

/-- read_data from the source: ready gate, then chip-select window around the
data-read opcode and a dummy exchange whose received byte is the result. -/
def read_data (ready : Bool) (rx : Nat) : List BusEv × Option Nat :=
  if !ready then ([], none)
  else ([BusEv.csLow] ++ spi_send Command.DataRead ++ spi_read_evs
        ++ [BusEv.csHigh], some (rx % 256))

/-- write_command from the source: ready gate, then chip-select window around
the command-write opcode and the register-address payload. -/
def write_command (ready : Bool) (command : Nat) : List BusEv × Option Unit :=
  if !ready then ([], none)
  else ([BusEv.csLow] ++ spi_send Command.CmdWrite ++ spi_send (command % 256)
        ++ [BusEv.csHigh], some ())

/-- read_status from the source: ready gate, then chip-select window around
the command-read opcode and a dummy exchange receiving the status byte. -/
def read_status (ready : Bool) (rx : Nat) : List BusEv × Option Nat :=
  if !ready then ([], none)
  else ([BusEv.csLow] ++ spi_send Command.CmdRead ++ spi_read_evs
        ++ [BusEv.csHigh], some (rx % 256))

end Transport

/- ---------------------------------------------------------------------
Transaction layer: one Tx event per successful transport transaction.
--------------------------------------------------------------------- -/

/-- Transaction-level event.  cmdWrite and dataWrite are full write_command /
write_data transactions; dataRead and statusRead are full read transactions
(their values come from the environment oracle); stream is a raw byte pushed
inside an open chip-select window; csLow and csHigh are the explicit
chip-select manipulations of the streaming code paths; poll stands for the
read-only busy-wait loop on a trigger register (register, busy mask). -/
inductive Tx where
  | cmdWrite : Nat → Tx
  | dataWrite : Nat → Tx
  | dataRead : Tx
  | statusRead : Tx
  | stream : Nat → Tx
  | csLow : Tx
  | csHigh : Tx
  | poll : Nat → Nat → Tx
deriving DecidableEq, Repr

/-- Environment oracle: the byte the chip answers when register r is read. -/
def Env : Type := Nat → Nat

/-- write_register from the source: a command-write transaction carrying the
register address, then a data-write transaction carrying the value. -/
def write_register (r v : Nat) : List Tx := [Tx.cmdWrite r, Tx.dataWrite v]

/-- read_register from the source: a command-write transaction carrying the
register address, then a data-read transaction; the value read is the
environment oracle answer for that register, as a byte. -/
def read_register (env : Env) (r : Nat) : List Tx × Nat :=
  ([Tx.cmdWrite r, Tx.dataRead], env r % 256)

/- ---------------------------------------------------------------------
Driver state, from struct RA8875 (the tracked fields that the modeled
operations read or update).
--------------------------------------------------------------------- -/

/-- TextModeSettings from the source. -/
structure TextModeSettings where
  cursor : Int × Int
  fg_color : Nat
  bg_color : Option Nat
  text_scale : Nat
  transparency : Bool
deriving DecidableEq, Repr

/-- GraphicsModeSettings from the source. -/
structure GraphicsModeSettings where
  cursor : Int × Int
  color : Nat
deriving DecidableEq, Repr

/-- Display mode, from enum Mode. -/
inductive Mode where
  | Text : Mode
  | Graphics : Mode
deriving DecidableEq, Repr

/-- Tracked driver state, from struct RA8875: panel dimensions (u32 pair) and
the mode-tracking fields. -/
structure RA8875State where
  dims : Nat × Nat
  text_settings : TextModeSettings
  gfx_settings : GraphicsModeSettings
  mode : Mode
deriving DecidableEq, Repr

/- ---------------------------------------------------------------------
Initialization: struct Timing and fn init.
--------------------------------------------------------------------- -/

/-- Timing record from the source struct Timing.  In the source the hsync
fields and vsync_pw are u8 and vsync_nondisp, vsync_start are u16; all are
Nat here with truncation made explicit at every cast site in init. -/
structure Timing where
  pixclk : Nat
  hsync_start : Nat
  hsync_pw : Nat
  hsync_finetune : Nat
  hsync_nondisp : Nat
  vsync_pw : Nat
  vsync_nondisp : Nat
  vsync_start : Nat
deriving DecidableEq, Repr

/-- Timing resolution from init in the source: the match on self.dims that
selects the fixed Timing record for (480, 272) or (800, 480); every other
resolution hits the fatal unsupported-dimensions arm, modeled as none. -/
def timingFor (dims : Nat × Nat) : Option Timing :=
  if dims = (480, 272) then
    some { pixclk := cmds.PcsrPdatl ||| cmds.PcsrClk4
           hsync_nondisp := 10
           hsync_start := 8
           hsync_pw := 48
           hsync_finetune := 0
           vsync_nondisp := 3
           vsync_start := 8
           vsync_pw := 10 }
  else if dims = (800, 480) then
    some { pixclk := cmds.PcsrPdatl ||| cmds.PcsrClk2
           hsync_nondisp := 26
           hsync_start := 32
           hsync_pw := 96
           hsync_finetune := 0
           vsync_nondisp := 32
           vsync_start := 23
           vsync_pw := 2 }
  else none

/-- init from the source.  The Sysr system-configuration write precedes the
resolution match in the source, so it is issued even when the resolution is
unsupported; in that case the source aborts with a fatal error before any
further write, and the Bool component is false.  Each u8 cast of a wider
value appears as % 256, each u32 or u16 right shift by 8 as division by 256,
and the subtractions never underflow at the two supported timings. -/
def init (dims : Nat × Nat) : List Tx × Bool :=
  let width := dims.1
  let height := dims.2
  let sysr := write_register Register.Sysr cmds.SysrBBP16
  match timingFor dims with
  | none => (sysr, false)
  | some t =>
    (sysr
      ++ write_register Register.Pcsr t.pixclk
      ++ write_register Register.Hdwr ((width / 8 - 1) % 256)
      ++ write_register Register.Hndftr (cmds.HndftrHigh + t.hsync_finetune)
      ++ write_register Register.Hndr ((t.hsync_nondisp - t.hsync_finetune - 2) / 8)
      ++ write_register Register.Hstr (t.hsync_start / 8 - 1)
      ++ write_register Register.Hpwr (cmds.HpwrLow + t.hsync_pw / 8 - 1)
      ++ write_register Register.Vdhr0 ((height - 1) % 256)
      ++ write_register Register.Vdhr1 ((height - 1) / 256 % 256)
      ++ write_register Register.Vndr0 ((t.vsync_nondisp - 1) % 256)
      ++ write_register Register.Vndr1 (t.vsync_nondisp / 256 % 256)
      ++ write_register Register.Vstr0 ((t.vsync_start - 1) % 256)
      ++ write_register Register.Vstr1 (t.vsync_start / 256 % 256)
      ++ write_register Register.Vpwr (cmds.VpwrLow + t.vsync_pw - 1)
      ++ write_register Register.Hsaw0 0
      ++ write_register Register.Hsaw1 0
      ++ write_register Register.Heaw0 ((width - 1) % 256)
      ++ write_register Register.Heaw1 ((width - 1) / 256 % 256)
      ++ write_register Register.Vsaw0 0
      ++ write_register Register.Vsaw1 0
      ++ write_register Register.Veaw0 ((height - 1) % 256)
      ++ write_register Register.Veaw1 ((height - 1) / 256 % 256)
      ++ write_register Register.Mclr cmds.MclrStart, true)

/- ---------------------------------------------------------------------
Mode state machine: text_mode and graphics_mode.
--------------------------------------------------------------------- -/

/-- text_mode from the source: a no-op when already in Text mode; otherwise a
read-modify-write of Mwcr0 setting the text-mode bit, then the fixed ROM-font
selection sequence (read-modify-write of register 0x21 masking the font
attribute bits, then clearing the serial-font-ROM register 0x2F), then the
tracked mode becomes Text. -/
def text_mode (env : Env) (s : RA8875State) : List Tx × RA8875State :=
  match s.mode with
  | Mode.Text => ([], s)
  | Mode.Graphics =>
    let r := read_register env Register.Mwcr0
    let romVal := env 0x21 % 256
    (r.1 ++ [Tx.dataWrite (r.2 ||| cmds.Mwcr0TxtMode)]
      ++ [Tx.cmdWrite 0x21, Tx.dataRead]
      ++ [Tx.dataWrite (romVal &&& ((1 <<< 7) ||| (1 <<< 5)))]
      ++ [Tx.cmdWrite 0x2F, Tx.dataWrite 0x00],
     { s with mode := Mode.Text })

/-- graphics_mode from the source: a no-op when already in Graphics mode;
otherwise a read-modify-write of Mwcr0 clearing the text-mode bit, then the
tracked mode becomes Graphics. -/
def graphics_mode (env : Env) (s : RA8875State) : List Tx × RA8875State :=
  match s.mode with
  | Mode.Graphics => ([], s)
  | Mode.Text =>
    let r := read_register env Register.Mwcr0
    (r.1 ++ [Tx.dataWrite (r.2 &&& u8compl cmds.Mwcr0TxtMode)],
     { s with mode := Mode.Graphics })

/- ---------------------------------------------------------------------
Cursor and color management: set_cursor and set_colors.
--------------------------------------------------------------------- -/

/-- set_cursor from the source: writes the cursor registers of the current
mode as low and high bytes of each i16 coordinate, then updates the tracked
cursor of that mode. -/
def set_cursor (s : RA8875State) (pos : Int × Int) : List Tx × RA8875State :=
  let x := pos.1
  let y := pos.2
  match s.mode with
  | Mode.Graphics =>
    (write_register Register.CurH0 (u8ofI16 x)
      ++ write_register Register.CurH1 (u8ofI16 (i16shr8 x))
      ++ write_register Register.CurV0 (u8ofI16 y)
      ++ write_register Register.CurV1 (u8ofI16 (i16shr8 y)),
     { s with gfx_settings := { s.gfx_settings with cursor := pos } })
  | Mode.Text =>
    (write_register Register.TextX0 (u8ofI16 x)
      ++ write_register Register.TextX1 (u8ofI16 (i16shr8 x))
      ++ write_register Register.TextY0 (u8ofI16 y)
      ++ write_register Register.TextY1 (u8ofI16 (i16shr8 y)),
     { s with text_settings := { s.text_settings with cursor := pos } })

/-- set_colors from the source: in Graphics mode, write the three 5-6-5
foreground channel registers and change no tracked state at all; in Text
mode, additionally write the background channel registers and clear the
hardware transparency flag (for a Some background) or set the hardware
transparency flag (for a None background), then update exactly the fg_color
and bg_color fields of the text settings. -/
def set_colors (env : Env) (s : RA8875State) (fg_color : Nat)
    (bg_color : Option Nat) : List Tx × RA8875State :=
  let fgTr :=
    write_register Register.Color0 ((fg_color &&& 0xf800) >>> 11)
      ++ write_register Register.Color1 ((fg_color &&& 0x07e0) >>> 5)
      ++ write_register Register.Color2 (fg_color &&& 0x001f)
  match s.mode with
  | Mode.Graphics => (fgTr, s)
  | Mode.Text =>
    let bgTr :=
      match bg_color with
      | some color =>
        write_register Register.TextBg0 ((color &&& 0xf800) >>> 11)
          ++ write_register Register.TextBg1 ((color &&& 0x07e0) >>> 5)
          ++ write_register Register.TextBg2 (color &&& 0x001f)
          ++ [Tx.cmdWrite Register.FontOptions, Tx.dataRead]
          ++ [Tx.dataWrite (env Register.FontOptions % 256 &&& u8compl (1 <<< 6))]
      | none =>
        [Tx.cmdWrite Register.FontOptions, Tx.dataRead]
          ++ [Tx.dataWrite (env Register.FontOptions % 256 ||| (1 <<< 6))]
    (fgTr ++ bgTr,
     { s with text_settings :=
        { s.text_settings with fg_color := fg_color, bg_color := bg_color } })

/- ---------------------------------------------------------------------
Primitive engine: draw_rect and fill_screen.
--------------------------------------------------------------------- -/

/-- draw_rect from the source: the eight shape coordinate registers as
low/high bytes of the two i16 corners, then set_colors with no background,
then the Dcr trigger register (0xB0 with fill, 0x90 without), then the
read-only completion poll on the busy bit of Dcr. -/
def draw_rect (env : Env) (s : RA8875State) (top_left bottom_right : Int × Int)
    (color : Nat) (fill : Bool) : List Tx × RA8875State :=
  let x0 := top_left.1
  let y0 := top_left.2
  let x1 := bottom_right.1
  let y1 := bottom_right.2
  let coordTr :=
    write_register Register.ShapeStartX0 (u8ofI16 x0)
      ++ write_register Register.ShapeStartX1 (u8ofI16 (i16shr8 x0))
      ++ write_register Register.ShapeStartY0 (u8ofI16 y0)
      ++ write_register Register.ShapeStartY1 (u8ofI16 (i16shr8 y0))
      ++ write_register Register.ShapeEndX0 (u8ofI16 x1)
      ++ write_register Register.ShapeEndX1 (u8ofI16 (i16shr8 x1))
      ++ write_register Register.ShapeEndY0 (u8ofI16 y1)
      ++ write_register Register.ShapeEndY1 (u8ofI16 (i16shr8 y1))
  let colors := set_colors env s color none
  let trig := if fill then write_register Register.Dcr 0xB0
              else write_register Register.Dcr 0x90
  (coordTr ++ colors.1 ++ trig ++ [Tx.poll Register.Dcr 0x80], colors.2)

/-- fill_screen from the source: draw_rect from (0, 0) to the panel
dimensions cast to i16, with fill set. -/
def fill_screen (env : Env) (s : RA8875State) (color : Nat) :
    List Tx × RA8875State :=
  draw_rect env s (0, 0) (i16wrap s.dims.1, i16wrap s.dims.2) color true

/- ---------------------------------------------------------------------
Touch reader: get_touch.
--------------------------------------------------------------------- -/

/-- get_touch from the source: read the X-high, Y-high and combined-low touch
registers, rebuild each coordinate as the high byte shifted left by 2 OR-ed
with its two low bits from the combined register, write the touch-event bit
to the interrupt-status register Intc2 to clear the interrupt, and return
both u16 coordinates cast to i16. -/
def get_touch (env : Env) : List Tx × (Int × Int) :=
  let r1 := read_register env Register.Tpxh
  let r2 := read_register env Register.Tpyh
  let r3 := read_register env Register.Tpxyl
  let tx := (r1.2 <<< 2) ||| (r3.2 &&& 0x03)
  let ty := (r2.2 <<< 2) ||| ((r3.2 >>> 2) &&& 0x03)
  (r1.1 ++ r2.1 ++ r3.1 ++ write_register Register.Intc2 cmds.Intc2TP,
   (i16ofU16 tx, i16ofU16 ty))

/- ---------------------------------------------------------------------
Text output: write_str.
--------------------------------------------------------------------- -/

/-- write_str from the source Write impl: in Text mode, one memory-write
command transaction followed by one data-write transaction per byte of the
string; in Graphics mode, a formatting error with no traffic at all.  The
Bool component is false exactly on the rejected Graphics-mode call. -/
def write_str (s : RA8875State) (bytes : List Nat) : List Tx × Bool :=
  match s.mode with
  | Mode.Text =>
    (Tx.cmdWrite Register.Mrwc :: bytes.map (fun b => Tx.dataWrite (b % 256)),
     true)
  | Mode.Graphics => ([], false)

/- ---------------------------------------------------------------------
Pixel streamer: fill_contiguous.
--------------------------------------------------------------------- -/

/-- to_coord from the source: cast each i32 component of a point to i16. -/
def to_coord (p : Int × Int) : Int × Int := (i16wrap p.1, i16wrap p.2)

/-- Points of the external graphics-library rectangle iterator used by
fill_contiguous, in row-major order (x fastest), as documented by that
library: rows from the top-left y downward, columns from the top-left x
rightward. -/
def rectPoints (top_left : Int × Int) (size : Nat × Nat) : List (Int × Int) :=
  (List.range size.2).flatMap (fun dy =>
    (List.range size.1).map (fun dx =>
      (top_left.1 + (dx : Int), top_left.2 + (dy : Int))))

/-- Loop of fill_contiguous from the source: for each point-color pair, when
the row differs from the last seen row, raise chip select, set the cursor to
that point, issue the memory-write command, lower chip select and stream the
data-write opcode; then stream the two bytes of the 5-6-5 color.  The source
assigns last_y only inside the row-change branch, which is equivalent to
always carrying the current row forward (outside that branch the carried row
already equals the current row). -/
def fill_contiguous_loop (pcs : List ((Int × Int) × Nat)) (last_y : Option Int)
    (s : RA8875State) : List Tx × RA8875State :=
  match pcs with
  | [] => ([], s)
  | (p, c) :: rest =>
    let pre :=
      if some p.2 ≠ last_y then
        let cur := set_cursor s (to_coord p)
        (([Tx.csHigh] ++ cur.1 ++ [Tx.cmdWrite Register.Mrwc, Tx.csLow,
           Tx.stream Command.DataWrite], cur.2) : List Tx × RA8875State)
      else (([], s) : List Tx × RA8875State)
    let pix := [Tx.stream (c / 256 % 256), Tx.stream (c % 256)]
    let rest_result := fill_contiguous_loop rest (some p.2) pre.2
    (pre.1 ++ pix ++ rest_result.1, rest_result.2)

/-- fill_contiguous from the source DrawTarget impl: zip the rectangle points
with the color sequence (stopping at the shorter, consuming the sequence once
in iteration order) and run the loop starting with no last row. -/
def fill_contiguous (s : RA8875State) (top_left : Int × Int)
    (size : Nat × Nat) (colors : List Nat) : List Tx × RA8875State :=
  fill_contiguous_loop ((rectPoints top_left size).zip colors) none s

/- ---------------------------------------------------------------------
Observation helpers used by the theorems.
--------------------------------------------------------------------- -/

/-- Template of a transaction event: payloads of data writes and streamed
bytes erased, so two traces with equal templates address the same registers
with the same kinds of transactions in the same order. -/
def txKind : Tx → Tx
  | Tx.dataWrite _ => Tx.dataWrite 0
  | Tx.stream _ => Tx.stream 0
  | e => e

/-- Predicate recognizing a memory-write-cursor command transaction. -/
def isMrwcCmd : Tx → Bool
  | Tx.cmdWrite b => b == Register.Mrwc
  | _ => false

/-- Count of row starts in a list of row indices: positions whose row differs
from the previous one, starting from a given carried row. -/
def rowStarts (last_y : Option Int) (ys : List Int) : Nat :=
  match ys with
  | [] => 0
  | y :: rest => (if some y ≠ last_y then 1 else 0) + rowStarts (some y) rest

/- ---------------------------------------------------------------------
Theorems.
--------------------------------------------------------------------- -/

set_option maxRecDepth 10000 in
/-- C1: for each supported resolution the initialization sequence derives the
timing register bytes from the Timing record with the documented integer
arithmetic, and the full set of timing register values written (Pcsr, Hdwr,
Hndftr, Hndr, Hstr, Hpwr, Vdhr0/1, Vndr0/1, Vstr0/1, Vpwr, plus the active
window and clear writes of the same sequence) is byte-identical to the
datasheet-derived constants: in particular the horizontal non-display
register Hndr receives (10 - 0 - 2) / 8 = 1 at 480x272 and
(26 - 0 - 2) / 8 = 3 at 800x480, with truncating division after both
subtractions. -/
theorem c1_init_timing_bytes :
    init (480, 272)
      = ([Tx.cmdWrite 0x10, Tx.dataWrite 0x0C,
          Tx.cmdWrite 0x04, Tx.dataWrite 0x82,
          Tx.cmdWrite 0x14, Tx.dataWrite 0x3B,
          Tx.cmdWrite 0x15, Tx.dataWrite 0x00,
          Tx.cmdWrite 0x16, Tx.dataWrite 0x01,
          Tx.cmdWrite 0x17, Tx.dataWrite 0x00,
          Tx.cmdWrite 0x18, Tx.dataWrite 0x05,
          Tx.cmdWrite 0x19, Tx.dataWrite 0x0F,
          Tx.cmdWrite 0x1A, Tx.dataWrite 0x01,
          Tx.cmdWrite 0x1B, Tx.dataWrite 0x02,
          Tx.cmdWrite 0x1C, Tx.dataWrite 0x00,
          Tx.cmdWrite 0x1D, Tx.dataWrite 0x07,
          Tx.cmdWrite 0x1E, Tx.dataWrite 0x00,
          Tx.cmdWrite 0x1F, Tx.dataWrite 0x09,
          Tx.cmdWrite 0x30, Tx.dataWrite 0x00,
          Tx.cmdWrite 0x31, Tx.dataWrite 0x00,
          Tx.cmdWrite 0x34, Tx.dataWrite 0xDF,
          Tx.cmdWrite 0x35, Tx.dataWrite 0x01,
          Tx.cmdWrite 0x32, Tx.dataWrite 0x00,
          Tx.cmdWrite 0x33, Tx.dataWrite 0x00,
          Tx.cmdWrite 0x36, Tx.dataWrite 0x0F,
          Tx.cmdWrite 0x37, Tx.dataWrite 0x01,
          Tx.cmdWrite 0x8E, Tx.dataWrite 0x80], true)
    ∧ init (800, 480)
      = ([Tx.cmdWrite 0x10, Tx.dataWrite 0x0C,
          Tx.cmdWrite 0x04, Tx.dataWrite 0x81,
          Tx.cmdWrite 0x14, Tx.dataWrite 0x63,
          Tx.cmdWrite 0x15, Tx.dataWrite 0x00,
          Tx.cmdWrite 0x16, Tx.dataWrite 0x03,
          Tx.cmdWrite 0x17, Tx.dataWrite 0x03,
          Tx.cmdWrite 0x18, Tx.dataWrite 0x0B,
          Tx.cmdWrite 0x19, Tx.dataWrite 0xDF,
          Tx.cmdWrite 0x1A, Tx.dataWrite 0x01,
          Tx.cmdWrite 0x1B, Tx.dataWrite 0x1F,
          Tx.cmdWrite 0x1C, Tx.dataWrite 0x00,
          Tx.cmdWrite 0x1D, Tx.dataWrite 0x16,
          Tx.cmdWrite 0x1E, Tx.dataWrite 0x00,
          Tx.cmdWrite 0x1F, Tx.dataWrite 0x01,
          Tx.cmdWrite 0x30, Tx.dataWrite 0x00,
          Tx.cmdWrite 0x31, Tx.dataWrite 0x00,
          Tx.cmdWrite 0x34, Tx.dataWrite 0x1F,
          Tx.cmdWrite 0x35, Tx.dataWrite 0x03,
          Tx.cmdWrite 0x32, Tx.dataWrite 0x00,
          Tx.cmdWrite 0x33, Tx.dataWrite 0x00,
          Tx.cmdWrite 0x36, Tx.dataWrite 0xDF,
          Tx.cmdWrite 0x37, Tx.dataWrite 0x01,
          Tx.cmdWrite 0x8E, Tx.dataWrite 0x80], true) := by
  constructor
  · rfl
  · rfl

/-- C2 counterexample: at the unsupported resolution (100, 100),
initialization does fail, but only after issuing register traffic: the Sysr
system-configuration write precedes the resolution check in the source, so
the claim that no register writes at all are issued before failing is false
at this input. -/
theorem c2_counterexample_sysr_write_before_failure :
    init (100, 100) = ([Tx.cmdWrite 0x10, Tx.dataWrite 0x0C], false)
    ∧ (init (100, 100)).1 ≠ [] := by
  decide

/-- C2 amended: for every panel resolution outside the supported set
(480, 272) and (800, 480), initialization fails fatally, and the traffic
issued before the failure is exactly the single Sysr system-configuration
register write that precedes the resolution check; in particular no timing
register write is issued. -/
theorem c2_unsupported_resolution_fails (d : Nat × Nat)
    (h1 : d ≠ (480, 272)) (h2 : d ≠ (800, 480)) :
    init d = (write_register Register.Sysr cmds.SysrBBP16, false) := by
  have ht : timingFor d = none := by
    unfold timingFor
    rw [if_neg h1, if_neg h2]
  unfold init
  rw [ht]

/-- Witness for the amended C2 theorem at the concrete resolution
(100, 100). -/
theorem c2_unsupported_resolution_fails_witness :
    init (100, 100) = (write_register Register.Sysr cmds.SysrBBP16, false) :=
  c2_unsupported_resolution_fails (100, 100) (by decide) (by decide)

/-- C6: with the tracked mode Graphics on the 480x272 panel, drawing an
unfilled rectangle at (10, 10)-(50, 50) and filling the whole screen issue
the identical register-write template (the same coordinate registers, color
registers and trigger register, with the same transaction kinds in the same
order), differing only in payload bytes; the trigger byte is 0x90 for the
outline and 0xB0 = 0x90 with the FILL bit for the fill, and fill_screen is
exactly a call of draw_rect over the full panel with fill set, not a
distinct hardware operation. -/
theorem c6_rect_and_fill_screen_share_template (env : Env) (ca cb : Nat)
    (ts : TextModeSettings) (gs : GraphicsModeSettings) :
    fill_screen env ⟨(480, 272), ts, gs, Mode.Graphics⟩ cb
      = draw_rect env ⟨(480, 272), ts, gs, Mode.Graphics⟩ (0, 0) (480, 272)
          cb true
    ∧ ((draw_rect env ⟨(480, 272), ts, gs, Mode.Graphics⟩ (10, 10) (50, 50)
          ca false).1).map txKind
      = ((fill_screen env ⟨(480, 272), ts, gs, Mode.Graphics⟩ cb).1).map txKind
    ∧ (draw_rect env ⟨(480, 272), ts, gs, Mode.Graphics⟩ (10, 10) (50, 50)
        ca false).1[23]? = some (Tx.dataWrite 0x90)
    ∧ (fill_screen env ⟨(480, 272), ts, gs, Mode.Graphics⟩ cb).1[23]?
        = some (Tx.dataWrite 0xB0)
    ∧ 0xB0 = 0x90 ||| cmds.DcrFILL := by
  have e1 : ((draw_rect env ⟨(480, 272), ts, gs, Mode.Graphics⟩ (10, 10)
        (50, 50) ca false).1).map txKind
      = [Tx.cmdWrite 0x91, Tx.dataWrite 0, Tx.cmdWrite 0x92, Tx.dataWrite 0,
         Tx.cmdWrite 0x93, Tx.dataWrite 0, Tx.cmdWrite 0x94, Tx.dataWrite 0,
         Tx.cmdWrite 0x95, Tx.dataWrite 0, Tx.cmdWrite 0x96, Tx.dataWrite 0,
         Tx.cmdWrite 0x97, Tx.dataWrite 0, Tx.cmdWrite 0x98, Tx.dataWrite 0,
         Tx.cmdWrite 0x63, Tx.dataWrite 0, Tx.cmdWrite 0x64, Tx.dataWrite 0,
         Tx.cmdWrite 0x65, Tx.dataWrite 0,
         Tx.cmdWrite 0x90, Tx.dataWrite 0, Tx.poll 0x90 0x80] := rfl
  have e2 : ((fill_screen env ⟨(480, 272), ts, gs, Mode.Graphics⟩ cb).1).map
        txKind
      = [Tx.cmdWrite 0x91, Tx.dataWrite 0, Tx.cmdWrite 0x92, Tx.dataWrite 0,
         Tx.cmdWrite 0x93, Tx.dataWrite 0, Tx.cmdWrite 0x94, Tx.dataWrite 0,
         Tx.cmdWrite 0x95, Tx.dataWrite 0, Tx.cmdWrite 0x96, Tx.dataWrite 0,
         Tx.cmdWrite 0x97, Tx.dataWrite 0, Tx.cmdWrite 0x98, Tx.dataWrite 0,
         Tx.cmdWrite 0x63, Tx.dataWrite 0, Tx.cmdWrite 0x64, Tx.dataWrite 0,
         Tx.cmdWrite 0x65, Tx.dataWrite 0,
         Tx.cmdWrite 0x90, Tx.dataWrite 0, Tx.poll 0x90 0x80] := rfl
  refine ⟨?_, e1.trans e2.symm, rfl, rfl, rfl⟩
  have h1 : i16wrap 480 = (480 : Int) := rfl
  have h2 : i16wrap 272 = (272 : Int) := rfl
  show draw_rect env ⟨(480, 272), ts, gs, Mode.Graphics⟩ (0, 0)
      (i16wrap 480, i16wrap 272) cb true
    = draw_rect env ⟨(480, 272), ts, gs, Mode.Graphics⟩ (0, 0) (480, 272)
        cb true
  rw [h1, h2]

/-- C10: fill_screen invokes draw_rect with top-left (0, 0) and bottom-right
the panel dimensions cast to i16; for a positive dimension small enough not
to wrap in the cast, that bottom-right component is one past the last
addressable pixel coordinate, the dimension minus one. -/
theorem c10_fill_screen_corner_one_past_end (env : Env) (s : RA8875State)
    (color : Nat) (w : Nat) (hw1 : 0 < w) (hw2 : w < 32768) :
    fill_screen env s color
      = draw_rect env s (0, 0) (i16wrap s.dims.1, i16wrap s.dims.2) color true
    ∧ i16wrap w = ((w : Int) - 1) + 1 := by
  constructor
  · rfl
  · unfold i16wrap
    omega

/-- Witness for the C10 theorem at the panel width 480 on a concrete
state. -/
theorem c10_fill_screen_corner_one_past_end_witness :
    fill_screen (fun _ => 0)
        ⟨(480, 272), ⟨(0, 0), 0, none, 1, false⟩, ⟨(0, 0), 0⟩, Mode.Graphics⟩ 0
      = draw_rect (fun _ => 0)
          ⟨(480, 272), ⟨(0, 0), 0, none, 1, false⟩, ⟨(0, 0), 0⟩, Mode.Graphics⟩
          (0, 0) (i16wrap 480, i16wrap 272) 0 true
    ∧ i16wrap 480 = ((480 : Int) - 1) + 1 :=
  c10_fill_screen_corner_one_past_end (fun _ => 0)
    ⟨(480, 272), ⟨(0, 0), 0, none, 1, false⟩, ⟨(0, 0), 0⟩, Mode.Graphics⟩
    0 480 (by decide) (by decide)

/-- Helper: a cursor-set sequence contains no memory-write command. -/
theorem set_cursor_mrwc_count (s : RA8875State) (p : Int × Int) :
    (set_cursor s p).1.countP isMrwcCmd = 0 := by
  rcases s with ⟨d, ts, gs, m⟩
  cases m <;> rfl

/-- Helper: a lone chip-select raise is not a memory-write command. -/
theorem countP_mrwc_csHigh : List.countP isMrwcCmd [Tx.csHigh] = 0 := rfl

/-- Helper: the command block of a row start contains exactly one
memory-write command. -/
theorem countP_mrwc_block (b : Nat) :
    List.countP isMrwcCmd
      [Tx.cmdWrite Register.Mrwc, Tx.csLow, Tx.stream b] = 1 := rfl

/-- Helper: a streamed color byte pair contains no memory-write command. -/
theorem countP_mrwc_pix (a b : Nat) :
    List.countP isMrwcCmd [Tx.stream a, Tx.stream b] = 0 := rfl

/-- Helper: the number of memory-write-command transactions emitted by the
contiguous-fill loop equals the number of row changes of its points. -/
theorem fill_contiguous_loop_mrwc_count (pcs : List ((Int × Int) × Nat)) :
    ∀ (last_y : Option Int) (s : RA8875State),
    (fill_contiguous_loop pcs last_y s).1.countP isMrwcCmd
      = rowStarts last_y (pcs.map (fun pc => pc.1.2)) := by
  induction pcs with
  | nil => intro last_y s; rfl
  | cons pc rest ih =>
    intro last_y s
    obtain ⟨p, c⟩ := pc
    simp only [fill_contiguous_loop, List.map_cons, rowStarts]
    by_cases h : some p.2 ≠ last_y
    · rw [if_pos h, if_pos h]
      simp only [List.countP_append, set_cursor_mrwc_count, countP_mrwc_csHigh,
        countP_mrwc_block, countP_mrwc_pix, ih]
    · rw [if_neg h, if_neg h]
      simp only [List.countP_append, List.countP_nil, countP_mrwc_pix, ih]

/-- C7: the number of cursor-set-plus-memory-write-command sequences emitted
by the contiguous fill equals the number of destination row changes in
general, and over a 3-wide 2-tall area from the origin in Graphics mode the
full trace re-issues the cursor-set and memory-write command exactly twice,
once per destination row, consuming the six colors exactly once in row-major
order as the streamed byte pairs. -/
theorem c7_fill_contiguous_row_sequences (k0 k1 k2 k3 k4 k5 : Nat)
    (d : Nat × Nat) (ts : TextModeSettings) (gs : GraphicsModeSettings)
    (tl : Int × Int) (size : Nat × Nat) (colors : List Nat) (s : RA8875State) :
    (fill_contiguous s tl size colors).1.countP isMrwcCmd
      = rowStarts none
          (((rectPoints tl size).zip colors).map (fun pc => pc.1.2))
    ∧ (fill_contiguous ⟨d, ts, gs, Mode.Graphics⟩ (0, 0) (3, 2)
        [k0, k1, k2, k3, k4, k5]).1
      = [Tx.csHigh,
         Tx.cmdWrite 0x46, Tx.dataWrite 0x00, Tx.cmdWrite 0x47,
         Tx.dataWrite 0x00, Tx.cmdWrite 0x48, Tx.dataWrite 0x00,
         Tx.cmdWrite 0x49, Tx.dataWrite 0x00,
         Tx.cmdWrite 0x02, Tx.csLow, Tx.stream 0x00,
         Tx.stream (k0 / 256 % 256), Tx.stream (k0 % 256),
         Tx.stream (k1 / 256 % 256), Tx.stream (k1 % 256),
         Tx.stream (k2 / 256 % 256), Tx.stream (k2 % 256),
         Tx.csHigh,
         Tx.cmdWrite 0x46, Tx.dataWrite 0x00, Tx.cmdWrite 0x47,
         Tx.dataWrite 0x00, Tx.cmdWrite 0x48, Tx.dataWrite 0x01,
         Tx.cmdWrite 0x49, Tx.dataWrite 0x00,
         Tx.cmdWrite 0x02, Tx.csLow, Tx.stream 0x00,
         Tx.stream (k3 / 256 % 256), Tx.stream (k3 % 256),
         Tx.stream (k4 / 256 % 256), Tx.stream (k4 % 256),
         Tx.stream (k5 / 256 % 256), Tx.stream (k5 % 256)]
    ∧ (fill_contiguous ⟨d, ts, gs, Mode.Graphics⟩ (0, 0) (3, 2)
        [k0, k1, k2, k3, k4, k5]).1.countP isMrwcCmd = 2 :=
  ⟨fill_contiguous_loop_mrwc_count ((rectPoints tl size).zip colors) none s,
   rfl, rfl⟩

/-- C3: a transport-level transaction issued while the ready signal reads low
returns WouldBlock and performs zero side effects: for each of the four
transaction kinds (data write, data read, command write, status read) the bus
event list is empty, so no opcode or payload byte is exchanged on the serial
channel and the chip-select line is never asserted. -/
theorem c3_transport_not_ready_no_side_effects (data rx : Nat) :
    Transport.write_data false data = ([], none)
    ∧ Transport.read_data false rx = ([], none)
    ∧ Transport.write_command false data = ([], none)
    ∧ Transport.read_status false rx = ([], none) :=
  ⟨rfl, rfl, rfl, rfl⟩

/-- C4: on a register source answering X-high 0x12, Y-high 0x34 and
combined-low 0b1001, get_touch returns x = 0x49 and y = 0xD2 (each
coordinate is the high byte shifted left by 2 OR-ed with its 2 low bits from
the combined register), and its final transaction writes the touch-event bit
0x04 back to the interrupt-status register Intc2 to clear it. -/
theorem c4_get_touch_decode :
    get_touch (fun r => if r = 0x72 then 0x12 else if r = 0x73 then 0x34
      else if r = 0x74 then 0b1001 else 0)
    = ([Tx.cmdWrite 0x72, Tx.dataRead, Tx.cmdWrite 0x73, Tx.dataRead,
        Tx.cmdWrite 0x74, Tx.dataRead, Tx.cmdWrite 0xF1, Tx.dataWrite 0x04],
       (0x49, 0xD2)) := by
  decide

/-- C5: mode transitions are idempotent: entering Text mode while the tracked
mode is already Text is a no-op with zero register traffic, entering Graphics
mode while already Graphics is likewise a no-op, and after an actual
Graphics-to-Text transition the second enter-text call produces zero traffic
and an unchanged state, so the ROM-font sequence (the command write to
register 0x21) is issued exactly once across the two calls. -/
theorem c5_mode_transitions_idempotent (env : Env) (d : Nat × Nat)
    (ts : TextModeSettings) (gs : GraphicsModeSettings) :
    text_mode env ⟨d, ts, gs, Mode.Text⟩ = ([], ⟨d, ts, gs, Mode.Text⟩)
    ∧ graphics_mode env ⟨d, ts, gs, Mode.Graphics⟩
        = ([], ⟨d, ts, gs, Mode.Graphics⟩)
    ∧ (text_mode env (text_mode env ⟨d, ts, gs, Mode.Graphics⟩).2).1 = []
    ∧ (text_mode env (text_mode env ⟨d, ts, gs, Mode.Graphics⟩).2).2
        = (text_mode env ⟨d, ts, gs, Mode.Graphics⟩).2
    ∧ (text_mode env ⟨d, ts, gs, Mode.Graphics⟩).1.countP
        (fun e => e == Tx.cmdWrite 0x21) = 1 :=
  ⟨rfl, rfl, rfl, rfl, rfl⟩

/-- C8: writing text while the tracked mode is Graphics is a defined failure,
rejected with zero transactions on the channel; in Text mode the same call
issues the memory-write command followed by one data write per character
byte. -/
theorem c8_write_str_mode_gate (bytes : List Nat) (d : Nat × Nat)
    (ts : TextModeSettings) (gs : GraphicsModeSettings) :
    write_str ⟨d, ts, gs, Mode.Graphics⟩ bytes = ([], false)
    ∧ write_str ⟨d, ts, gs, Mode.Text⟩ bytes
        = (Tx.cmdWrite Register.Mrwc
            :: bytes.map (fun b => Tx.dataWrite (b % 256)), true) :=
  ⟨rfl, rfl⟩

/-- C9: set_colors in Graphics mode writes exactly the three 5-6-5 foreground
channel registers and leaves the whole tracked state, in particular every
field of both settings records, unchanged; in Text mode it additionally
handles the background and transparency registers and its only state change
is to the fg_color and bg_color fields of the text settings, with the
graphics settings untouched. -/
theorem c9_set_colors_state_effects (env : Env) (fg c : Nat) (d : Nat × Nat)
    (ts : TextModeSettings) (gs : GraphicsModeSettings) :
    set_colors env ⟨d, ts, gs, Mode.Graphics⟩ fg (some c)
      = (write_register Register.Color0 ((fg &&& 0xf800) >>> 11)
          ++ write_register Register.Color1 ((fg &&& 0x07e0) >>> 5)
          ++ write_register Register.Color2 (fg &&& 0x001f),
         ⟨d, ts, gs, Mode.Graphics⟩)
    ∧ set_colors env ⟨d, ts, gs, Mode.Graphics⟩ fg none
      = (write_register Register.Color0 ((fg &&& 0xf800) >>> 11)
          ++ write_register Register.Color1 ((fg &&& 0x07e0) >>> 5)
          ++ write_register Register.Color2 (fg &&& 0x001f),
         ⟨d, ts, gs, Mode.Graphics⟩)
    ∧ set_colors env ⟨d, ts, gs, Mode.Text⟩ fg (some c)
      = (write_register Register.Color0 ((fg &&& 0xf800) >>> 11)
          ++ write_register Register.Color1 ((fg &&& 0x07e0) >>> 5)
          ++ write_register Register.Color2 (fg &&& 0x001f)
          ++ write_register Register.TextBg0 ((c &&& 0xf800) >>> 11)
          ++ write_register Register.TextBg1 ((c &&& 0x07e0) >>> 5)
          ++ write_register Register.TextBg2 (c &&& 0x001f)
          ++ [Tx.cmdWrite Register.FontOptions, Tx.dataRead]
          ++ [Tx.dataWrite (env Register.FontOptions % 256 &&& u8compl (1 <<< 6))],
         ⟨d, { ts with fg_color := fg, bg_color := some c }, gs, Mode.Text⟩)
    ∧ set_colors env ⟨d, ts, gs, Mode.Text⟩ fg none
      = (write_register Register.Color0 ((fg &&& 0xf800) >>> 11)
          ++ write_register Register.Color1 ((fg &&& 0x07e0) >>> 5)
          ++ write_register Register.Color2 (fg &&& 0x001f)
          ++ [Tx.cmdWrite Register.FontOptions, Tx.dataRead]
          ++ [Tx.dataWrite (env Register.FontOptions % 256 ||| (1 <<< 6))],
         ⟨d, { ts with fg_color := fg, bg_color := none }, gs, Mode.Text⟩) :=
  ⟨rfl, rfl, rfl, rfl⟩

end RA8875
